import Mathlib

/-!
Shallow embedding of the Halaqa telegram bot menu engine, translated from
`telegram_bot_prod.py` (the JSON-file revision) and
`telegram_bot_prod_v2.py` (the spreadsheet revision).

The menu structure is a Python value: a JSON-style dict whose values are
nested dicts, strings (URLs, descriptions) and, in the v2 revision, lists
of file/link metadata dicts.  Dicts are modelled as insertion-ordered
association lists, matching Python's ordered `dict`.  Telegram keyboards
are modelled as lists of rows of button labels.  Side effects (messages,
file deliveries) are reified as directives and action lists.
-/

/-- Python values occurring in the bot's menu structures: strings, lists
(the v2 loader stores `file_ids` / `external_links` as lists of dicts) and
dicts (insertion-ordered association lists). -/
inductive Val where
  | str (s : String)
  | list (xs : List Val)
  | obj (entries : List (String × Val))

abbrev Entries := List (String × Val)

/-- Key lookup in a Python dict (first matching binding; keys of a real
Python dict are unique). -/
def lookupEntry : Entries → String → Option Val
  | [], _ => none
  | (k, v) :: rest, key => if k = key then some v else lookupEntry rest key

/-- Python truthiness of a menu value (`if current_menu:`): the empty
dict, the empty list and the empty string are falsy. -/
def truthy : Val → Bool
  | .str s => !s.isEmpty
  | .list xs => !xs.isEmpty
  | .obj es => !es.isEmpty

/-- Substring test on character lists: Python's `needle in hay` for
strings (true when `needle` occurs contiguously in `hay`; the empty
needle is always contained). -/
def listHasSubstr (needle : List Char) : List Char → Bool
  | [] => needle.isEmpty
  | c :: t => needle.isPrefixOf (c :: t) || listHasSubstr needle t

/-- Python's `needle in hay` on strings. -/
def pyStrIn (needle hay : String) : Bool :=
  listHasSubstr needle.toList hay.toList

/-- Python's `item in current` for the value kinds a menu holds: key
membership for dicts, substring for strings, element equality for lists
(a string label equals no dict, so only string elements can match). -/
def pyContains (item : String) : Val → Bool
  | .obj es => (lookupEntry es item).isSome
  | .str s => pyStrIn item s
  | .list xs => xs.any (fun v => match v with | .str t => t = item | _ => false)

/-- Python's `current[item]` with a string key: dict lookup; `none`
models the `TypeError` Python raises when a string or a list is indexed
with a string.  (For dicts this is only evaluated after a successful
membership test, so the missing-key case is never reached.) -/
def pyIndex (v : Val) (item : String) : Option Val :=
  match v with
  | .obj es => lookupEntry es item
  | _ => none

/-- `BotManager.get_menu_item` (telegram_bot_prod.py lines 83–91;
identical in telegram_bot_prod_v2.py lines 343–351):

    current = menu
    for item in path:
        if item not in current:
            return None
        current = current[item]
    return current

`.ok none` is Python's `return None` at a missing label; `.error ()` is
the `TypeError` raised by `current[item]` when `current` is a string or a
list whose membership test for `item` succeeded. -/
def get_menu_item : Val → List String → Except Unit (Option Val)
  | current, [] => .ok (some current)
  | current, item :: rest =>
    if pyContains item current then
      match pyIndex current item with
      | some next => get_menu_item next rest
      | none => .error ()
    else .ok none

/-- The reserved back button label ("🔙 رجوع"). -/
def BACK_LABEL : String := "🔙 رجوع"

/-- The reserved main-menu button label ("🏠 القائمة الرئيسية"). -/
def MAIN_LABEL : String := "🏠 القائمة الرئيسية"

/-- `BotManager.get_keyboard_for_menu` (telegram_bot_prod.py lines
63–81), with `ReplyKeyboardMarkup` modelled as the ordered list of rows
of button labels: one row per menu key, then a back/main row when any
item row exists, else a lone main-menu row. -/
def get_keyboard_for_menu (es : Entries) : List (List String) :=
  let keyboard := es.map (fun e => [e.1])
  if keyboard.isEmpty then [[MAIN_LABEL]]
  else keyboard ++ [[BACK_LABEL, MAIN_LABEL]]

/-- `BotManager.get_keyboard_for_menu` of the v2 revision
(telegram_bot_prod_v2.py lines 320–341): identical except that keys equal
to `"file_ids"` are skipped (`if key != "file_ids"`); the UTF-8
encode/decode round-trip on each key is the identity. -/
def get_keyboard_for_menu_v2 (es : Entries) : List (List String) :=
  let keyboard := ((es.map Prod.fst).filter (fun k => !(k == "file_ids"))).map
    (fun k => [k])
  if keyboard.isEmpty then [[MAIN_LABEL]]
  else keyboard ++ [[BACK_LABEL, MAIN_LABEL]]

/-- The menu-rendering pipeline of the JSON revision: resolve the node at
`path` with `get_menu_item`, then build the keyboard rows for it (the
keyboard is built from a dict node; any other outcome renders nothing). -/
def renderKeyboard (menu : Val) (path : List String) :
    Option (List (List String)) :=
  match get_menu_item menu path with
  | .ok (some (.obj es)) => some (get_keyboard_for_menu es)
  | _ => none

/-- The observable reply of one `handle_menu_navigation` call. -/
inductive Directive where
  /-- Main-menu reset: welcome text plus the root keyboard. -/
  | mainMenu
  /-- `"قائمة …:"` title plus the keyboard of the given node. -/
  | renderMenu (node : Val)
  /-- The `"الرجاء اختيار خيار صحيح."` hint (sent without a keyboard). -/
  | invalidChoice
  /-- An uncaught Python exception propagates out of the handler. -/
  | raised

/-- Content deliveries performed while handling one message. -/
inductive BotAction where
  /-- `FileHandler.send_file` was invoked with this `file_id` value. -/
  | sentFile (url : Val)
  /-- An inline-keyboard message for this `link` value was sent. -/
  | sentLink (url : Val)

/-- Result of one `handle_menu_navigation` call: the user's stored path
afterwards (the handler mutates `user_states[user_id]` in place), the
reply directive, and the content deliveries performed. -/
structure NavResult where
  path : List String
  directive : Directive
  actions : List BotAction

/-- Content deliveries for a selected child `next_level`
(telegram_bot_prod.py lines 380–416): only dicts are inspected; a
`file_id` key triggers a file delivery, a `link` key a link message
(both may fire, in this order). -/
def navActions (nl : Val) : List BotAction :=
  match nl with
  | .obj es =>
    (match lookupEntry es "file_id" with
     | some u => [.sentFile u]
     | none => []) ++
    (match lookupEntry es "link" with
     | some u => [.sentLink u]
     | none => [])
  | _ => []

/-- Whether `next_level` is a dict with at least one dict value —
the submenu test `any(isinstance(val, dict) for val in
next_level.values())` guarded by `isinstance(next_level, dict)`
(telegram_bot_prod.py lines 380 and 418–420). -/
def hasObjValue : Val → Bool
  | .obj es => es.any (fun e => match e.2 with | .obj _ => true | _ => false)
  | _ => false

/-- The final re-resolution and reply of `handle_menu_navigation`
(telegram_bot_prod.py lines 422–433): re-resolve the (possibly updated)
path; a truthy node is rendered with its keyboard, `None` or a falsy
node yields the invalid-choice hint, a `TypeError` propagates.  The
stored path is left as given in every case. -/
def finishRender (menu : Val) (p : List String) (acts : List BotAction) :
    NavResult :=
  match get_menu_item menu p with
  | .error _ => ⟨p, .raised, acts⟩
  | .ok none => ⟨p, .invalidChoice, acts⟩
  | .ok (some cm) =>
    if truthy cm then ⟨p, .renderMenu cm, acts⟩ else ⟨p, .invalidChoice, acts⟩

/-- `TelegramBot.handle_menu_navigation` (telegram_bot_prod.py lines
332–435) for a fixed loaded `menu`, the user's stored `path` and the
pressed label `text`:

* the main-menu label resets the path and re-renders the root;
* the back label pops the last segment when the path is non-empty, then
  falls through to the final re-resolution;
* any other label resolves the current node; when that node is truthy
  and contains the label, the child is looked up, deliveries fire for
  `file_id` / `link` keys, and the path is pushed when the child is a
  submenu; otherwise nothing changes before the final re-resolution. -/
def handle_menu_navigation (menu : Val) (path : List String) (text : String) :
    NavResult :=
  if text = MAIN_LABEL then ⟨[], .mainMenu, []⟩
  else if text = BACK_LABEL then
    finishRender menu (if path.isEmpty then path else path.dropLast) []
  else
    match get_menu_item menu path with
    | .error _ => ⟨path, .raised, []⟩
    | .ok none => finishRender menu path []
    | .ok (some cm) =>
      if truthy cm && pyContains text cm then
        match pyIndex cm text with
        | none => ⟨path, .raised, []⟩
        | some nl =>
          finishRender menu
            (if hasObjValue nl then path ++ [text] else path)
            (navActions nl)
      else finishRender menu path []

/-- The stored path after a user, starting at the root (empty path),
sends the given sequence of messages against a fixed menu tree. -/
def runNav (menu : Val) (texts : List String) : List String :=
  texts.foldl (fun p t => (handle_menu_navigation menu p t).path) []

/-- `GoogleSheetsHandler.get_menu_structure` (telegram_bot_prod_v2.py
lines 173–293) seen through its error behaviour: the whole body is
wrapped in `try`/`except` returning `{}` on any failure (lines 289–293),
and an empty sheet list also yields `{}`.  `fetch` is the outcome of the
network fetch and parse: `some t` is a successfully built tree, `none`
any failure. -/
def get_menu_structure (fetch : Option Entries) : Entries :=
  fetch.getD []

/-- The v2 `BotManager` cache fields (`_menu_structure`, `_last_update`,
telegram_bot_prod_v2.py lines 299–304); time is in whole seconds. -/
structure CacheState where
  menuStructure : Option Entries
  lastUpdate : Nat

/-- `_update_interval = 300` — refresh the menu every 5 minutes. -/
def UPDATE_INTERVAL : Nat := 300

/-- `BotManager.load_menu_structure` (telegram_bot_prod_v2.py lines
306–318): when no tree is cached, the cache is older than the interval,
or a reload is forced, fetch a fresh tree (which is `{}` on failure) and
cache it; otherwise return the cached tree untouched.  Returns the served
tree and the updated cache state. -/
def load_menu_structure (st : CacheState) (now : Nat) (force : Bool)
    (fetch : Option Entries) : Entries × CacheState :=
  if st.menuStructure.isNone || decide (UPDATE_INTERVAL < now - st.lastUpdate)
      || force then
    let m := get_menu_structure fetch
    (m, ⟨some m, now⟩)
  else
    (st.menuStructure.getD [], st)

/-- Where, if anywhere, an exception interrupts the `try` body of
`FileHandler.send_file` after a successful download (the download itself
never raises — `download_file` catches its own errors and returns
`None`). -/
inductive ExcPoint where
  /-- The body runs to completion. -/
  | noExc
  /-- `reply_audio` / `reply_document` raises (delivery failure). -/
  | atSend
  /-- `downloading_message.delete()` raises, after a successful send. -/
  | atMsgDelete
deriving DecidableEq

/-- Observable outcome of `FileHandler.send_file`: its boolean return
value and whether the temporary file written for this delivery is still
on disk afterwards. -/
structure SendOutcome where
  returned : Bool
  tempRemains : Bool
deriving DecidableEq

/-- `FileHandler.send_file` (telegram_bot_prod.py lines 209–298) as its
exit-path skeleton.  `downloaded` is the result of `download_file`
(`none` covers timeouts, connection errors and invalid links — all are
caught inside `download_file` and surface as `None`).  On `None` no
temporary file is ever created and the status message is edited to a
failure notice (`False`).  Otherwise the temp file is written; a clean
run sends it, deletes the status message, unlinks the file and returns
`True`; an exception at the send or at the status-message deletion jumps
to the `except` handler (`False`) before `temp_file_path.unlink()`, so
the file stays on disk. -/
def send_file (downloaded : Option (List Nat)) (exc : ExcPoint) :
    SendOutcome :=
  match downloaded with
  | none => ⟨false, false⟩
  | some _ =>
    match exc with
    | .noExc => ⟨true, false⟩
    | .atSend => ⟨false, true⟩
    | .atMsgDelete => ⟨false, true⟩

/-- One attempt of `re.search` at the current position, for patterns of
the shape `lit1 ([^excl]+) lit2`: `lit1` must match here, the capture is
the maximal run of characters different from `excl` (it must be
non-empty), and `lit2` must follow it.  Backtracking to a shorter capture
can never help: `lit2` is either empty or starts with `excl`, while every
earlier cut point is followed by a non-`excl` character. -/
def matchCapture (lit1 : List Char) (excl : Char) (lit2 : List Char)
    (cs : List Char) : Option (List Char) :=
  if lit1.isPrefixOf cs then
    let rest := cs.drop lit1.length
    let seg := rest.takeWhile (fun c => !(c == excl))
    if seg.isEmpty then none
    else if lit2.isPrefixOf (rest.drop seg.length) then some seg else none
  else none

/-- `re.search` for such a pattern: try every start position from the
left and return the first capture found. -/
def searchCapture (lit1 : List Char) (excl : Char) (lit2 : List Char) :
    List Char → Option (List Char)
  | [] => matchCapture lit1 excl lit2 []
  | c :: t =>
    match matchCapture lit1 excl lit2 (c :: t) with
    | some seg => some seg
    | none => searchCapture lit1 excl lit2 t

/-- The four patterns of `FileHandler.parse_google_drive_link`
(telegram_bot_prod.py lines 129–135), each as `(lit1, excl, lit2)`:
`file/d/([^/]+)/view?usp=drive_link`, `file/d/([^/]+)/view?usp=sharing`,
`open?id=([^&]+)` and `uc?id=([^&]+)`, all anchored nowhere
(`re.search`). -/
def drivePatterns : List (List Char × Char × List Char) :=
  [("https://drive.google.com/file/d/".toList, '/',
    "/view?usp=drive_link".toList),
   ("https://drive.google.com/file/d/".toList, '/',
    "/view?usp=sharing".toList),
   ("https://drive.google.com/open?id=".toList, '&', []),
   ("https://drive.google.com/uc?id=".toList, '&', [])]

/-- `FileHandler.parse_google_drive_link` (telegram_bot_prod.py lines
120–144): try the patterns in order; the first match yields
`https://drive.google.com/uc?export=download&id={file_id}`; no match
yields `None`. -/
def parse_google_drive_link (file_url : String) : Option String :=
  match drivePatterns.findSome?
      (fun p => searchCapture p.1 p.2.1 p.2.2 file_url.toList) with
  | some fid =>
    some ("https://drive.google.com/uc?export=download&id=" ++ String.mk fid)
  | none => none

/-- The URL-rewriting step of `FileHandler.download_file`
(telegram_bot_prod.py lines 161–168): URLs containing
`drive.google.com` are rewritten through `parse_google_drive_link`
before the HTTP GET — `none` means the download aborts with no GET
issued; other URLs are requested as given. -/
def download_request_url (file_url : String) : Option String :=
  if pyStrIn "drive.google.com" file_url then
    parse_google_drive_link file_url
  else some file_url

/-- Whether a value is a Python dict (`isinstance(v, dict)`). -/
def isObjB : Val → Bool
  | .obj _ => true
  | _ => false

/-- Spec-side path resolution ("follow each label through `children`"):
succeeds only while every node stepped through is a dict. -/
def resolveObj : Val → List String → Option Val
  | v, [] => some v
  | .obj es, item :: rest =>
    match lookupEntry es item with
    | some next => resolveObj next rest
    | none => none
  | .str _, _ :: _ => none
  | .list _, _ :: _ => none

theorem resolveObj_append (v : Val) (p q : List String) :
    resolveObj v (p ++ q) = (resolveObj v p).bind (fun w => resolveObj w q) := by
  induction p generalizing v with
  | nil => simp [resolveObj]
  | cons i rest ih =>
    cases v with
    | str s => simp [resolveObj]
    | list xs => simp [resolveObj]
    | obj es =>
      simp only [List.cons_append, resolveObj]
      cases lookupEntry es i with
      | none => simp
      | some next => simpa using ih next

/-- Resolution that stays inside dict nodes agrees with the Python
`get_menu_item` and in particular never raises. -/
theorem get_menu_item_of_resolve (menu : Val) (p : List String) (v : Val)
    (h : resolveObj menu p = some v) :
    get_menu_item menu p = Except.ok (some v) := by
  induction p generalizing menu with
  | nil =>
    simp only [resolveObj, Option.some.injEq] at h
    simp [get_menu_item, h]
  | cons i rest ih =>
    cases menu with
    | str s => simp [resolveObj] at h
    | list xs => simp [resolveObj] at h
    | obj es =>
      simp only [resolveObj] at h
      cases hl : lookupEntry es i with
      | none => rw [hl] at h; exact absurd h (by simp)
      | some next =>
        rw [hl] at h
        simp only [get_menu_item, pyContains, pyIndex, hl, Option.isSome_some,
          if_true]
        exact ih next h

/-- The invariant maintained by navigation: the stored path resolves,
through dict nodes only, to a dict node of the fixed tree. -/
def pathInv (menu : Val) (p : List String) : Prop :=
  ∃ es, resolveObj menu p = some (Val.obj es)

theorem pathInv_of_append (menu : Val) (p q : List String)
    (h : pathInv menu (p ++ q)) : pathInv menu p := by
  obtain ⟨es, hres⟩ := h
  rw [resolveObj_append] at hres
  cases hw : resolveObj menu p with
  | none => rw [hw] at hres; simp at hres
  | some w =>
    rw [hw] at hres
    simp only [Option.some_bind] at hres
    cases q with
    | nil =>
      simp only [resolveObj, Option.some.injEq] at hres
      exact ⟨es, by rw [hw, hres]⟩
    | cons i rest =>
      cases w with
      | str s => simp [resolveObj] at hres
      | list xs => simp [resolveObj] at hres
      | obj es' => exact ⟨es', hw⟩

theorem pathInv_dropLast (menu : Val) (p : List String)
    (h : pathInv menu p) : pathInv menu p.dropLast := by
  cases hp : p with
  | nil => rw [hp] at h; simpa using h
  | cons a t =>
    have hne : p ≠ [] := by rw [hp]; exact List.cons_ne_nil a t
    have : p.dropLast ++ [p.getLast hne] = p :=
      List.dropLast_append_getLast hne
    rw [← hp]
    exact pathInv_of_append menu p.dropLast [p.getLast hne] (by rwa [this])

theorem finishRender_path (menu : Val) (p : List String)
    (acts : List BotAction) : (finishRender menu p acts).path = p := by
  unfold finishRender
  cases get_menu_item menu p with
  | error e => rfl
  | ok o =>
    cases o with
    | none => rfl
    | some cm => by_cases h : truthy cm <;> simp [h]

/-- One navigation step keeps the stored path resolving to a dict node
of the tree (for a tree whose root is a dict, as every loaded
`menu_structure` is). -/
theorem handle_menu_navigation_preserves (menu : Val)
    (hm : isObjB menu = true) (p : List String) (t : String)
    (h : pathInv menu p) :
    pathInv menu (handle_menu_navigation menu p t).path := by
  unfold handle_menu_navigation
  by_cases h1 : t = MAIN_LABEL
  · simp only [h1, if_true]
    cases menu with
    | str s => simp [isObjB] at hm
    | list xs => simp [isObjB] at hm
    | obj es => exact ⟨es, rfl⟩
  · rw [if_neg h1]
    by_cases h2 : t = BACK_LABEL
    · rw [if_pos h2, finishRender_path]
      by_cases hp : p.isEmpty
      · have hpe : p = [] := by simpa using hp
        subst hpe
        simpa using h
      · simp only [hp, if_false, Bool.false_eq_true]
        exact pathInv_dropLast menu p h
    · rw [if_neg h2]
      obtain ⟨es, hres⟩ := h
      have hget : get_menu_item menu p = Except.ok (some (Val.obj es)) :=
        get_menu_item_of_resolve menu p (Val.obj es) hres
      simp only [hget]
      by_cases hc : truthy (Val.obj es) && pyContains t (Val.obj es)
      · rw [if_pos hc]
        cases hl : lookupEntry es t with
        | none =>
          have : pyContains t (Val.obj es) = false := by
            simp [pyContains, hl]
          rw [this, Bool.and_false] at hc
          exact absurd hc (by simp)
        | some nl =>
          simp only [pyIndex, hl, finishRender_path]
          by_cases hobj : hasObjValue nl
          · rw [if_pos hobj]
            cases nl with
            | str s => simp [hasObjValue] at hobj
            | list xs => simp [hasObjValue] at hobj
            | obj es2 =>
              refine ⟨es2, ?_⟩
              rw [resolveObj_append, hres]
              simp [resolveObj, hl]
          · rw [if_neg hobj]
            exact ⟨es, hres⟩
      · rw [if_neg hc, finishRender_path]
        exact ⟨es, hres⟩

theorem pathInv_runNav (menu : Val) (hm : isObjB menu = true)
    (texts : List String) : pathInv menu (runNav menu texts) := by
  suffices h : ∀ (ts : List String) (p : List String), pathInv menu p →
      pathInv menu
        (ts.foldl (fun q t => (handle_menu_navigation menu q t).path) p) by
    apply h
    cases menu with
    | str s => simp [isObjB] at hm
    | list xs => simp [isObjB] at hm
    | obj es => exact ⟨es, rfl⟩
  intro ts
  induction ts with
  | nil => intro p hp; simpa using hp
  | cons t rest ih =>
    intro p hp
    exact ih _ (handle_menu_navigation_preserves menu hm p t hp)

/-- A small concrete menu in the shape of `menu_structure.json`: a
section `"a"` holding a subsection `"b"` that carries a `file_id` leaf. -/
def demoMenu : Val :=
  .obj [("a", .obj [("b", .obj [("file_id", .str "http://x/f.pdf")])])]

/-- C1 counterexample: with the stored path `["z"]` stale for this tree
(`get_menu_item` returns `None` on it), handling the label `"a"` keeps
the stale path `["z"]` stored and replies with the invalid-choice hint —
it does not reset the path to `[]` nor re-render the root menu. -/
theorem c1_counterexample :
    get_menu_item demoMenu ["z"] = Except.ok none ∧
    handle_menu_navigation demoMenu ["z"] "a"
      = ⟨["z"], Directive.invalidChoice, []⟩ ∧
    (["z"] : List String) ≠ [] :=
  ⟨rfl, rfl, by decide⟩

/-- C1 (amended): for every user whose stored path fails to resolve
against the current menu tree, processing a non-control navigation event
leaves the stale path stored unchanged, performs no delivery, and
replies with the invalid-choice hint; no error propagates. -/
theorem c1_stale_path_kept (menu : Val) (p : List String) (t : String)
    (h1 : t ≠ MAIN_LABEL) (h2 : t ≠ BACK_LABEL)
    (h3 : get_menu_item menu p = Except.ok none) :
    handle_menu_navigation menu p t = ⟨p, Directive.invalidChoice, []⟩ := by
  unfold handle_menu_navigation
  rw [if_neg h1, if_neg h2]
  simp only [h3]
  unfold finishRender
  simp only [h3]

/-- C1 witness: the amended statement at the concrete stale state of
`c1_counterexample`. -/
theorem c1_witness :
    handle_menu_navigation demoMenu ["z"] "a"
      = ⟨["z"], Directive.invalidChoice, []⟩ :=
  c1_stale_path_kept demoMenu ["z"] "a" (by decide) (by decide) rfl

/-- C2 (confirmed): over a fixed menu tree (a dict, as every loaded
`menu_structure` is), any sequence of button presses handled by
`handle_menu_navigation` starting from the empty path leaves the stored
path resolving to an existing node: `get_menu_item` on it returns a node
(never `None`) and never raises. -/
theorem c2_navigation_invariant (menu : Val) (hm : isObjB menu = true)
    (texts : List String) :
    ∃ v, get_menu_item menu (runNav menu texts) = Except.ok (some v) := by
  obtain ⟨es, hres⟩ := pathInv_runNav menu hm texts
  exact ⟨Val.obj es, get_menu_item_of_resolve menu _ (Val.obj es) hres⟩

/-- C2 witness: the invariant evaluated on a concrete tree and a press
sequence that descends, presses an unknown label, goes back and descends
again. -/
theorem c2_witness :
    ∃ v, get_menu_item demoMenu
        (runNav demoMenu ["a", "zz", BACK_LABEL, "a", "b"])
      = Except.ok (some v) :=
  c2_navigation_invariant demoMenu rfl ["a", "zz", BACK_LABEL, "a", "b"]

/-- C4 counterexample: pressing `"zzz"`, which is not a key of the root
node of `demoMenu`, leaves the path unchanged but re-renders the current
menu — the directive is `renderMenu`, not the invalid-choice hint the
claim requires. -/
theorem c4_counterexample :
    handle_menu_navigation demoMenu [] "zzz"
      = ⟨[], Directive.renderMenu demoMenu, []⟩ ∧
    Directive.renderMenu demoMenu ≠ Directive.invalidChoice :=
  ⟨rfl, fun h => Directive.noConfusion h⟩

/-- C4 (amended): pressing a label that is neither a control label nor a
key of the (resolved) current node leaves the path unchanged and delivers
no content, but the reply re-renders the current menu when that node is
truthy; the invalid-choice hint appears only for a falsy node. -/
theorem c4_invalid_label (menu cm : Val) (p : List String) (t : String)
    (h1 : t ≠ MAIN_LABEL) (h2 : t ≠ BACK_LABEL)
    (h3 : get_menu_item menu p = Except.ok (some cm))
    (h4 : pyContains t cm = false) :
    handle_menu_navigation menu p t
      = ⟨p, if truthy cm then Directive.renderMenu cm
            else Directive.invalidChoice, []⟩ := by
  unfold handle_menu_navigation
  rw [if_neg h1, if_neg h2]
  simp only [h3, h4, Bool.and_false]
  rw [if_neg (by simp)]
  unfold finishRender
  simp only [h3]
  by_cases hcm : truthy cm <;> simp [hcm]

/-- C4 witness: the amended statement at the root of `demoMenu` with the
unknown label `"nope"`. -/
theorem c4_witness :
    handle_menu_navigation demoMenu [] "nope"
      = ⟨[], if truthy demoMenu then Directive.renderMenu demoMenu
             else Directive.invalidChoice, []⟩ :=
  c4_invalid_label demoMenu demoMenu [] "nope" (by decide) (by decide) rfl rfl

/-- C7 counterexample: on the degenerate tree with an empty root (the
spec counts it a valid tree), pressing back at the empty path keeps the
path empty but replies with the invalid-choice hint instead of rendering
the root menu. -/
theorem c7_counterexample :
    handle_menu_navigation (Val.obj []) [] BACK_LABEL
      = ⟨[], Directive.invalidChoice, []⟩ ∧
    Directive.invalidChoice ≠ Directive.renderMenu (Val.obj []) :=
  ⟨rfl, fun h => Directive.noConfusion h⟩

/-- C7 (amended): pressing back with an already-empty path is a no-op on
the path for every tree, and the root menu is re-rendered whenever the
root node is truthy (non-empty); an empty root draws the invalid-choice
hint instead. -/
theorem c7_back_at_root (menu : Val) :
    (handle_menu_navigation menu [] BACK_LABEL).path = [] ∧
    (truthy menu = true →
      handle_menu_navigation menu [] BACK_LABEL
        = ⟨[], Directive.renderMenu menu, []⟩) := by
  have hne : BACK_LABEL ≠ MAIN_LABEL := by decide
  constructor
  · unfold handle_menu_navigation
    rw [if_neg hne, if_pos rfl]
    simpa using finishRender_path menu [] []
  · intro ht
    unfold handle_menu_navigation
    rw [if_neg hne, if_pos rfl]
    unfold finishRender
    simp [get_menu_item, ht]

/-- C7 witness: back at the root of the concrete non-empty `demoMenu`. -/
theorem c7_witness :
    (handle_menu_navigation demoMenu [] BACK_LABEL).path = [] ∧
    handle_menu_navigation demoMenu [] BACK_LABEL
      = ⟨[], Directive.renderMenu demoMenu, []⟩ :=
  ⟨(c7_back_at_root demoMenu).1, (c7_back_at_root demoMenu).2 rfl⟩

/-- C8 (confirmed): menu rendering is a pure function of `(tree, path)`
— resolving the node with `get_menu_item` and building its keyboard
twice on the same inputs yields the identical ordered rows of button
labels.  In this effect-free embedding the pipeline is a function, so
the two renders are definitionally the same. -/
theorem c8_render_idempotent (menu : Val) (path : List String) :
    renderKeyboard menu path = renderKeyboard menu path := rfl

/-- C9 counterexample: `get_menu_item` is not total — on the menu
`{"a": "url"}` with path `["a", "r"]` Python finds `"r" in "url"` true
by substring and then raises `TypeError` at `current["r"]`; the
embedding returns the error outcome rather than a node or `None`. -/
theorem c9_counterexample :
    get_menu_item (Val.obj [("a", Val.str "url")]) ["a", "r"]
      = Except.error () := rfl

/-- C9 (amended): `get_menu_item` returns the root itself on the empty
path, returns `None` as soon as a label is missing at a dict level, and
returns the reached node — without raising — whenever resolution passes
only through dict nodes; totality fails only for paths that descend
through a non-dict value whose Python membership test succeeds. -/
theorem c9_get_menu_item_total :
    (∀ menu : Val, get_menu_item menu [] = Except.ok (some menu)) ∧
    (∀ (menu : Val) (p : List String) (v : Val), resolveObj menu p = some v →
      get_menu_item menu p = Except.ok (some v)) ∧
    (∀ (es : Entries) (item : String) (rest : List String),
      lookupEntry es item = none →
      get_menu_item (Val.obj es) (item :: rest) = Except.ok none) :=
  ⟨fun _ => rfl,
   fun menu p v h => get_menu_item_of_resolve menu p v h,
   fun es item rest h => by
     simp [get_menu_item, pyContains, h]⟩

/-- C9 witness: the three amended behaviours on concrete inputs:
identity at `[]`, a resolving two-segment path, and a missing label. -/
theorem c9_witness :
    get_menu_item demoMenu [] = Except.ok (some demoMenu) ∧
    get_menu_item demoMenu ["a", "b"]
      = Except.ok (some (Val.obj [("file_id", Val.str "http://x/f.pdf")])) ∧
    get_menu_item demoMenu ["q"] = Except.ok none :=
  ⟨c9_get_menu_item_total.1 demoMenu,
   c9_get_menu_item_total.2.1 demoMenu ["a", "b"]
     (Val.obj [("file_id", Val.str "http://x/f.pdf")]) rfl,
   c9_get_menu_item_total.2.2 [("a", Val.obj [("b",
     Val.obj [("file_id", Val.str "http://x/f.pdf")])])] "q" [] rfl⟩

/-- C3 counterexample: with a non-empty tree cached 301 seconds ago
(older than the 300-second interval) and the source failing, the refresh
fires, the previously cached tree is discarded, and the empty tree is
both returned and cached — not the previously cached tree the claim
promises. -/
theorem c3_counterexample :
    load_menu_structure ⟨some [("a", Val.obj [])], 0⟩ 301 false none
      = ([], ⟨some [], 301⟩) ∧
    ([("a", Val.obj [])] : Entries) ≠ [] :=
  ⟨rfl, fun h => List.noConfusion h⟩

/-- C3 (amended): a cached tree no older than the update interval is
served unchanged without consulting the source (so the 4-minute scenario
with a 5-minute ttl returns the cached tree whatever the source would
do); but when the refresh does fire — cache missing or older than the
interval — a failing load returns and caches the empty tree, replacing
any previously cached one. -/
theorem c3_cache_policy :
    (∀ (m : Entries) (t d : Nat) (fetch : Option Entries),
      d ≤ UPDATE_INTERVAL →
      load_menu_structure ⟨some m, t⟩ (t + d) false fetch = (m, ⟨some m, t⟩)) ∧
    (∀ (m : Entries) (t now : Nat), UPDATE_INTERVAL < now - t →
      load_menu_structure ⟨some m, t⟩ now false none = ([], ⟨some [], now⟩)) ∧
    (∀ (t now : Nat),
      load_menu_structure ⟨none, t⟩ now false none = ([], ⟨some [], now⟩)) := by
  refine ⟨fun m t d fetch hd => ?_, fun m t now hnow => ?_, fun t now => ?_⟩
  · have hlt : ¬ UPDATE_INTERVAL < d := Nat.not_lt.mpr hd
    simp [load_menu_structure, Nat.add_sub_cancel_left, hlt]
  · simp [load_menu_structure, hnow, get_menu_structure]
  · simp [load_menu_structure, get_menu_structure]

/-- C3 witness: the spec's Scenario E concretely — a tree cached at
t = 0 s, queried at t = 240 s (4 minutes) with the source failing, is
served unchanged; and the two refresh-failure cases concretely. -/
theorem c3_witness :
    load_menu_structure ⟨some [("a", Val.obj [])], 0⟩ 240 false none
      = ([("a", Val.obj [])], ⟨some [("a", Val.obj [])], 0⟩) ∧
    load_menu_structure ⟨some [("a", Val.obj [])], 0⟩ 301 false none
      = ([], ⟨some [], 301⟩) ∧
    load_menu_structure ⟨none, 0⟩ 7 false none = ([], ⟨some [], 7⟩) :=
  ⟨c3_cache_policy.1 [("a", Val.obj [])] 0 240 none (by decide),
   c3_cache_policy.2.1 [("a", Val.obj [])] 0 301 (by decide),
   c3_cache_policy.2.2 0 7⟩

/-- C5 counterexample: a delivery where the download succeeded but the
send step raises leaves the temporary file written for the delivery on
disk (`send_file` only unlinks it on the success path), contradicting
the claim that no temporary file remains on every exit path. -/
theorem c5_counterexample :
    send_file (some [72, 101]) ExcPoint.atSend
      = ⟨false, true⟩ :=
  rfl

/-- C5 (amended): the temporary file is deleted exactly on the clean
exit paths — when the download fails none is ever created, and a fully
successful delivery unlinks it; but an exception at the send or at the
status-message deletion skips `temp_file_path.unlink()`, so the file
remains on disk (until the periodic `cleanup_temp_files`).  The return
value is `True` exactly on a clean full run. -/
theorem c5_temp_file (d : Option (List Nat)) (exc : ExcPoint) :
    (send_file d exc).tempRemains
      = (d.isSome && decide (exc ≠ ExcPoint.noExc)) ∧
    (send_file d exc).returned
      = (d.isSome && decide (exc = ExcPoint.noExc)) := by
  cases d <;> cases exc <;> simp [send_file]

theorem isPrefixOf_append (l r : List Char) :
    l.isPrefixOf (l ++ r) = true := by
  induction l with
  | nil => cases r <;> rfl
  | cons a t ih => simp [List.isPrefixOf, ih]

theorem takeWhile_append_stop (p : Char → Bool) (l : List Char) (d : Char)
    (r : List Char) (hl : ∀ c ∈ l, p c = true) (hd : p d = false) :
    (l ++ d :: r).takeWhile p = l := by
  induction l with
  | nil => simp [List.takeWhile_cons, hd]
  | cons a t ih =>
    have ha : p a = true := hl a (by simp)
    simp only [List.cons_append, List.takeWhile_cons, ha, if_true]
    rw [ih (fun c hc => hl c (by simp [hc]))]

theorem takeWhile_all (p : Char → Bool) (l : List Char)
    (hl : ∀ c ∈ l, p c = true) : l.takeWhile p = l := by
  induction l with
  | nil => rfl
  | cons a t ih =>
    have ha : p a = true := hl a (by simp)
    simp only [List.takeWhile_cons, ha, if_true]
    rw [ih (fun c hc => hl c (by simp [hc]))]

/-- For a pattern `lit1 ([^excl]+) lit2` whose trailing literal is empty
or starts with the excluded character, matching at the start of
`lit1 ++ fid ++ lit2` captures exactly `fid` (the greedy run). -/
theorem matchCapture_exact (lit1 : List Char) (excl : Char)
    (lit2 : List Char) (fid : List Char) (hne : fid ≠ [])
    (hfid : ∀ c ∈ fid, (c == excl) = false)
    (hl2 : lit2 = [] ∨ ∃ r, lit2 = excl :: r) :
    matchCapture lit1 excl lit2 (lit1 ++ (fid ++ lit2)) = some fid := by
  have hall : ∀ c ∈ fid, (fun c => !(c == excl)) c = true := by
    intro c hc
    simp [hfid c hc]
  have hseg : (fid ++ lit2).takeWhile (fun c => !(c == excl)) = fid := by
    rcases hl2 with h0 | ⟨r, hr⟩
    · rw [h0, List.append_nil]
      exact takeWhile_all _ fid hall
    · rw [hr]
      exact takeWhile_append_stop _ fid excl r hall (by simp)
  have hnotempty : fid.isEmpty = false := by
    cases fid with
    | nil => exact absurd rfl hne
    | cons a t => rfl
  have hpre : lit2.isPrefixOf lit2 = true := by
    have h := isPrefixOf_append lit2 []
    rwa [List.append_nil] at h
  unfold matchCapture
  rw [if_pos (isPrefixOf_append lit1 (fid ++ lit2))]
  dsimp only
  rw [List.drop_left, hseg, hnotempty, List.drop_left]
  simp [hpre]

/-- `re.search` returns the match found at the leftmost position; in
particular a match at the very start wins. -/
theorem searchCapture_of_match (lit1 : List Char) (excl : Char)
    (lit2 : List Char) (cs : List Char) (seg : List Char)
    (h : matchCapture lit1 excl lit2 cs = some seg) :
    searchCapture lit1 excl lit2 cs = some seg := by
  cases cs with
  | nil => simpa [searchCapture] using h
  | cons c t => simp [searchCapture, h]

/-- C6 counterexample: a `/file/d/{id}/view` share link with the query
suffix `?foo=bar` — which the claim says is rewritten like any other
query suffix — matches none of the four patterns: the parse returns
`None` and the download aborts with no HTTP GET issued. -/
theorem c6_counterexample :
    parse_google_drive_link
        "https://drive.google.com/file/d/ABC123/view?foo=bar" = none ∧
    download_request_url
        "https://drive.google.com/file/d/ABC123/view?foo=bar" = none :=
  ⟨rfl, rfl⟩

/-- C6 (amended): share links are rewritten to
`https://drive.google.com/uc?export=download&id={id}` only in the exact
shapes the patterns accept — `/file/d/{id}/view` with a query beginning
`usp=drive_link` or `usp=sharing` (first conjunct: every non-empty id
without `/`), an `open` path with `?id={id}`, or a `uc` path with
`?id={id}`; the spec's Scenario C URL is rewritten exactly as stated
before the GET is issued. -/
theorem c6_drive_rewrite :
    (∀ fid : List Char, fid ≠ [] → (∀ c ∈ fid, (c == '/') = false) →
      parse_google_drive_link
          (String.mk ("https://drive.google.com/file/d/".toList ++ fid ++
            "/view?usp=drive_link".toList))
        = some ("https://drive.google.com/uc?export=download&id=" ++
            String.mk fid)) ∧
    (download_request_url
        "https://drive.google.com/file/d/ABC123/view?usp=sharing"
      = some "https://drive.google.com/uc?export=download&id=ABC123") ∧
    (parse_google_drive_link "https://drive.google.com/open?id=XYZ"
      = some "https://drive.google.com/uc?export=download&id=XYZ") ∧
    (parse_google_drive_link "https://drive.google.com/uc?id=QQQ"
      = some "https://drive.google.com/uc?export=download&id=QQQ") := by
  refine ⟨fun fid hne hfid => ?_, rfl, rfl, rfl⟩
  have hm := matchCapture_exact "https://drive.google.com/file/d/".toList '/'
    "/view?usp=drive_link".toList fid hne hfid
    (Or.inr ⟨"view?usp=drive_link".toList, rfl⟩)
  have hs := searchCapture_of_match "https://drive.google.com/file/d/".toList
    '/' "/view?usp=drive_link".toList _ fid hm
  simp only [parse_google_drive_link, drivePatterns, List.findSome?_cons]
  rw [show (String.mk ("https://drive.google.com/file/d/".toList ++ fid ++
    "/view?usp=drive_link".toList)).toList
    = "https://drive.google.com/file/d/".toList ++ (fid ++
      "/view?usp=drive_link".toList) from rfl]
  rw [hs]

/-- C6 witness: the first (general) conjunct instantiated at the id
`ABC123`, producing the direct-download rewrite. -/
theorem c6_witness :
    parse_google_drive_link
        (String.mk ("https://drive.google.com/file/d/".toList ++
          "ABC123".toList ++ "/view?usp=drive_link".toList))
      = some ("https://drive.google.com/uc?export=download&id=" ++
          String.mk "ABC123".toList) :=
  c6_drive_rewrite.1 "ABC123".toList (by decide) (by decide)

/-- C10 (confirmed): the v2 keyboard filters exactly the reserved key
`"file_ids"` out of the button rows: every other key of the node —
including the internal storage key `"external_links"` — becomes a
pressable button row of its own. -/
theorem c10_keyboard_filter (es : Entries) :
    (∀ k : String, k ∈ es.map Prod.fst → k ≠ "file_ids" →
      [k] ∈ get_keyboard_for_menu_v2 es) ∧
    ["file_ids"] ∉ get_keyboard_for_menu_v2 es ∧
    ("external_links" ∈ es.map Prod.fst →
      ["external_links"] ∈ get_keyboard_for_menu_v2 es) := by
  have hmem : ∀ k : String, k ∈ es.map Prod.fst → k ≠ "file_ids" →
      [k] ∈ get_keyboard_for_menu_v2 es := by
    intro k hk hne
    have hk' : k ∈ (es.map Prod.fst).filter (fun k => !(k == "file_ids")) :=
      List.mem_filter.mpr ⟨hk, by simp [hne]⟩
    have hitem : [k] ∈ ((es.map Prod.fst).filter
        (fun k => !(k == "file_ids"))).map (fun k => [k]) :=
      List.mem_map_of_mem (fun k => [k]) hk'
    simp only [get_keyboard_for_menu_v2]
    have hemp : (((es.map Prod.fst).filter (fun k => !(k == "file_ids"))).map
        (fun k : String => [k])).isEmpty = false := by
      cases hI : ((es.map Prod.fst).filter (fun k => !(k == "file_ids"))).map
          (fun k : String => [k]) with
      | nil => rw [hI] at hitem; simp at hitem
      | cons a t => rfl
    rw [hemp]
    simp only [Bool.false_eq_true, if_false]
    exact List.mem_append_left _ hitem
  refine ⟨hmem, ?_, fun h => hmem "external_links" h (by decide)⟩
  intro hbad
  simp only [get_keyboard_for_menu_v2] at hbad
  by_cases hI : (((es.map Prod.fst).filter (fun k => !(k == "file_ids"))).map
      (fun k : String => [k])).isEmpty
  · rw [hI] at hbad
    simp only [if_true] at hbad
    simp [MAIN_LABEL] at hbad
  · rw [Bool.not_eq_true] at hI
    rw [hI] at hbad
    simp only [Bool.false_eq_true, if_false] at hbad
    rcases List.mem_append.mp hbad with hin | hctl
    · rcases List.mem_map.mp hin with ⟨k, hkf, hkeq⟩
      have : k = "file_ids" := by
        injection hkeq with h1 _
      subst this
      have := (List.mem_filter.mp hkf).2
      simp at this
    · simp [BACK_LABEL, MAIN_LABEL] at hctl

/-- C10 witness: a node built the way the spreadsheet loader stores
links (`file_ids` and `external_links` lists): the rendered rows contain
a pressable `external_links` button and no `file_ids` button. -/
theorem c10_witness :
    ["external_links"] ∈ get_keyboard_for_menu_v2
        [("file_ids", Val.list [Val.obj [("file_id", Val.str "u")]]),
         ("external_links", Val.list [Val.obj [("url", Val.str "v")]])] ∧
    ["file_ids"] ∉ get_keyboard_for_menu_v2
        [("file_ids", Val.list [Val.obj [("file_id", Val.str "u")]]),
         ("external_links", Val.list [Val.obj [("url", Val.str "v")]])] :=
  ⟨(c10_keyboard_filter _).2.2 (by decide),
   (c10_keyboard_filter _).2.1⟩
